import Mathlib

/-!
Verification of the cross-retailer search, delivery-gate, and feedback
subsystems of the BharathBrains repository in a shallow embedding.

Machine numbers are modelled as `Int` (JS integer timestamps, counts) and
`ℚ` (JS floating-point rates and the `Math.random()` draw); asynchronous
effects (the settled outcome of each per-retailer fetch race, the external
pincode lookup, the random draw, the current time) are passed explicitly as
oracle arguments.
-/

namespace Spec2Proof

/-! ## Cross-retailer search orchestrator (CrossRetailerEngine) -/

/-- The configured retailer names, from `CrossRetailerEngine.retailers`. -/
inductive Retailer
  | amazon
  | flipkart
  | myntra
  | meesho
deriving DecidableEq, Repr

/-- The configuration list `['amazon', 'flipkart', 'myntra', 'meesho']`. -/
def retailers : List Retailer :=
  [Retailer.amazon, Retailer.flipkart, Retailer.myntra, Retailer.meesho]

/-- The per-source status field of a `SearchResult` (loading / success / error). -/
inductive Status
  | loading
  | success
  | error
deriving DecidableEq, Repr

/-- One retailer's `SearchResult` slot: status, product list and optional
error message.  Products are kept abstract (`P`) because the orchestrator
never inspects them. -/
structure SearchResult (P : Type) where
  status : Status
  products : List P
  error : Option String := none
deriving DecidableEq, Repr

/-- The settled outcome of one per-retailer fetch race in
`searchAllRetailers`: the adapter resolved with products within the
deadline, the adapter threw (the inner catch turns the exception into a
message), or the 10s timeout promise rejected first. -/
inductive FetchOutcome (P : Type)
  | ok (products : List P)
  | thrown (msg : String)
  | timeout
deriving DecidableEq, Repr

/-- How `searchAllRetailers` converts one settled race outcome into the
retailer's `SearchResult`: the inner catch yields
`{status: 'error', products: [], error: message}` for a thrown adapter, a
rejected race (timeout) yields the fixed `'Search timeout or failed'`
message, and a fulfilled fetch yields `{status: 'success', products}`. -/
def settleOutcome {P : Type} (o : FetchOutcome P) : SearchResult P :=
  match o with
  | FetchOutcome.ok ps => { status := Status.success, products := ps }
  | FetchOutcome.thrown m =>
      { status := Status.error, products := [], error := some m }
  | FetchOutcome.timeout =>
      { status := Status.error, products := [],
        error := some "Search timeout or failed" }

/-- The result object literal that `searchAllRetailers` builds first:
every retailer key pre-populated with `{status: 'loading', products: []}`. -/
def initResults (P : Type) : List (Retailer × SearchResult P) :=
  [(Retailer.amazon, { status := Status.loading, products := [] }),
   (Retailer.flipkart, { status := Status.loading, products := [] }),
   (Retailer.myntra, { status := Status.loading, products := [] }),
   (Retailer.meesho, { status := Status.loading, products := [] })]

/-- The assignment `results[retailer] = value` on the result object,
modelled on an association list: the slot with that key is replaced. -/
def setResult {P : Type} (m : List (Retailer × SearchResult P))
    (r : Retailer) (v : SearchResult P) : List (Retailer × SearchResult P) :=
  m.map (fun e => if e.1 = r then (r, v) else e)

/-- `CrossRetailerEngine.searchAllRetailers`: pre-populate every retailer
slot with `loading`, then write each retailer's settled race outcome into
its own slot (the `searchResults.forEach` loop, indexed by the retailers
configuration list).  The settled outcome function `outcome` is the oracle
for the parallel fetch races. -/
def searchAllRetailers {P : Type} (outcome : Retailer → FetchOutcome P) :
    List (Retailer × SearchResult P) :=
  retailers.foldl (fun acc r => setResult acc r (settleOutcome (outcome r)))
    (initResults P)

/-- Reading `results[retailer]` from the result object. -/
def findResult {P : Type} (m : List (Retailer × SearchResult P))
    (r : Retailer) : Option (SearchResult P) :=
  (m.find? (fun e => decide (e.1 = r))).map Prod.snd

/-- `CrossRetailerEngine.validateDelivery`'s per-retailer pincode lists
(`deliveryZones`). -/
def deliveryZones (r : Retailer) : List String :=
  match r with
  | Retailer.amazon => ["110001", "400001", "560001", "600001", "700001"]
  | Retailer.flipkart => ["110001", "400001", "560001", "600001", "700001"]
  | Retailer.myntra => ["110001", "400001", "560001", "600001"]
  | Retailer.meesho => ["110001", "400001", "560001", "600001", "700001"]

/-- `CrossRetailerEngine.validateDelivery`:
`deliveryZones[retailer]?.includes(pincode) || Math.random() > 0.2`.
The `Math.random()` draw is the explicit oracle argument `rnd`. -/
def validateDelivery (pincode : String) (retailer : Retailer) (rnd : ℚ) :
    Bool :=
  (deliveryZones retailer).contains pincode || decide (rnd > 0.2)

/-! ## Mock products and highlight generation (CrossRetailerEngine) -/

/-- A product highlight tag. -/
inductive HighlightType
  | top_pick
  | best_value
  | fastest_delivery
deriving DecidableEq, Repr

/-- One highlight entry `{type, reason}`. -/
structure Highlight where
  type : HighlightType
  reason : String
deriving DecidableEq, Repr

/-- The fields of a mock product that the scoring/highlight layer reads.
Presentation-only fields of the source `Product` (image URL, description,
spec map, delivery info, explanation, retailer URL, freshness timestamp)
are omitted from the model; they are never read by highlight assignment. -/
structure Product where
  id : String
  retailer : Retailer
  name : String
  brand : String
  price : Nat
  originalPrice : Option Nat
  rating : ℚ
  reviewCount : Nat
  matchScore : Nat
  highlights : List Highlight
deriving DecidableEq, Repr

/-- One entry of the `baseProducts` array in
`CrossRetailerEngine.getMockProducts`. -/
structure BaseProduct where
  name : String
  brand : String
  price : Nat
  originalPrice : Option Nat
  rating : ℚ
  reviewCount : Nat
deriving DecidableEq, Repr

/-- The `baseProducts` literal of `getMockProducts`, parameterized by the
query description interpolated into each name. -/
def baseProducts (desc : String) : List BaseProduct :=
  [{ name := desc ++ " - Premium Quality", brand := "BrandA", price := 2500,
     originalPrice := some 3000, rating := 42/10, reviewCount := 156 },
   { name := desc ++ " - Best Value", brand := "BrandB", price := 1800,
     originalPrice := none, rating := 4, reviewCount := 89 },
   { name := desc ++ " - Top Rated", brand := "BrandC", price := 3200,
     originalPrice := some 4000, rating := 45/10, reviewCount := 234 }]

/-- `CrossRetailerEngine.generateHighlights(index)`: purely positional —
index 0 gets `top_pick`, index 1 gets `best_value`, index 2 gets
`fastest_delivery`, any other index gets nothing. -/
def generateHighlights (index : Nat) : List Highlight :=
  (if index = 0 then
    [{ type := HighlightType.top_pick,
       reason := "Highest rated with premium features" }] else []) ++
  (if index = 1 then
    [{ type := HighlightType.best_value,
       reason := "Great quality at affordable price" }] else []) ++
  (if index = 2 then
    [{ type := HighlightType.fastest_delivery,
       reason := "Express delivery available" }] else [])

/-- The retailer name string used in the product id template. -/
def retailerName (r : Retailer) : String :=
  match r with
  | Retailer.amazon => "amazon"
  | Retailer.flipkart => "flipkart"
  | Retailer.myntra => "myntra"
  | Retailer.meesho => "meesho"

/-- `CrossRetailerEngine.getMockProducts`: maps `baseProducts` with its
index.  `now` models `Date.now()` in the id template and `rand i` models
`Math.floor(Math.random() * 30)` for item `i`, so
`matchScore = 70 + rand i ∈ [70, 99]`. -/
def getMockProducts (retailer : Retailer) (desc : String) (now : Int)
    (rand : Nat → Fin 30) : List Product :=
  List.zipWith
    (fun i p =>
      { id := retailerName retailer ++ "-" ++ toString now ++ "-" ++ toString i,
        retailer := retailer,
        name := p.name,
        brand := p.brand,
        price := p.price,
        originalPrice := p.originalPrice,
        rating := p.rating,
        reviewCount := p.reviewCount,
        matchScore := 70 + (rand i).val,
        highlights := generateHighlights i })
    (List.range (baseProducts desc).length) (baseProducts desc)

/-- Does this product carry the `top_pick` highlight? -/
def hasTopPick (p : Product) : Bool :=
  p.highlights.any (fun h => h.type == HighlightType.top_pick)

/-- The claimed highlight property, stated from the spec's words for
comparison with the code: in a batch, every holder of `top_pick` has the
maximum match score. -/
def topPickOnMaxScore (ps : List Product) : Prop :=
  ∀ p ∈ ps, hasTopPick p = true → ∀ q ∈ ps, q.matchScore ≤ p.matchScore

/-! ## Feedback service (FeedbackService) -/

/-- A JavaScript runtime value for the untrusted id fields of a feedback
event: a string, a number, or absent (`undefined`). -/
inductive JSVal
  | str (s : String)
  | num (n : Int)
  | undef
deriving DecidableEq, Repr

/-- JS truthiness: empty string, 0 and `undefined` are falsy. -/
def JSVal.truthy : JSVal → Bool
  | JSVal.str s => !(s == "")
  | JSVal.num n => !(n == 0)
  | JSVal.undef => false

/-- `typeof v === 'string'`. -/
def JSVal.isString : JSVal → Bool
  | JSVal.str _ => true
  | _ => false

/-- A feedback event (`UserFeedback`).  The id fields are untrusted JS
values; `type` holds the runtime verdict string; `timestamp` is a JS
number modelled as `Int` (so the source's `typeof !== 'number'` guard is
vacuous in the model, and the truthiness of a number is `≠ 0`). -/
structure UserFeedback where
  productId : JSVal
  queryId : JSVal
  type : String
  timestamp : Int
deriving DecidableEq, Repr

/-- `FeedbackService.validateFeedback`: the four guards, in source order.
Note the timestamp guard fires only when the timestamp is truthy
(nonzero), so a 0 timestamp is never rejected. -/
def validateFeedback (f : UserFeedback) : Except String Unit :=
  if !f.productId.truthy || !f.productId.isString then
    Except.error "Product ID is required and must be a string"
  else if !f.queryId.truthy || !f.queryId.isString then
    Except.error "Query ID is required and must be a string"
  else if !(f.type == "relevant" || f.type == "not_relevant") then
    Except.error "Feedback type must be either \"relevant\" or \"not_relevant\""
  else if !(f.timestamp == 0) && decide (f.timestamp < 0) then
    Except.error "Timestamp must be a positive number"
  else
    Except.ok ()

/-- The object pushed onto the store:
`{...feedback, timestamp: feedback.timestamp || Date.now()}` — a falsy
(zero) timestamp is replaced by the ingestion time `now`. -/
def storedEvent (f : UserFeedback) (now : Int) : UserFeedback :=
  { f with timestamp := if !(f.timestamp == 0) then f.timestamp else now }

/-- `FeedbackService.submitFeedback`: validate, then append the stored
event.  The store is passed and returned explicitly; a thrown validation
error is the `Except.error` case, in which no event is appended. -/
def submitFeedback (f : UserFeedback) (store : List UserFeedback)
    (now : Int) : Except String (List UserFeedback) :=
  match validateFeedback f with
  | Except.error e => Except.error e
  | Except.ok _ => Except.ok (store ++ [storedEvent f now])

/-- The store after a `submitFeedback` call: unchanged when validation
throws (the `push` is never reached). -/
def runSubmit (f : UserFeedback) (store : List UserFeedback) (now : Int) :
    List UserFeedback :=
  match submitFeedback f store now with
  | Except.ok st => st
  | Except.error _ => store

/-- Stores reachable through the service from the empty store, with a
positive ingestion clock (`Date.now() > 0`). -/
inductive ReachableFeedbackStore : List UserFeedback → Prop
  | nil : ReachableFeedbackStore []
  | submit {st st' : List UserFeedback} {f : UserFeedback} {now : Int} :
      ReachableFeedbackStore st → 0 < now →
      submitFeedback f st now = Except.ok st' →
      ReachableFeedbackStore st'

/-- `Math.round(q * 100) / 100`, the 2-decimal rounding used for every
reported rate.  JS `Math.round(x)` is `⌊x + 1/2⌋` (half away from minus
infinity), here on exact rationals. -/
def round2 (q : ℚ) : ℚ := ((⌊q * 100 + 1/2⌋ : ℤ) : ℚ) / 100

/-- The summary block of `FeedbackService.getFeedbackAnalytics`. -/
structure AnalyticsSummary where
  totalFeedback : Nat
  relevantCount : Nat
  notRelevantCount : Nat
  relevanceRate : ℚ
deriving DecidableEq, Repr

/-- The summary computation of `getFeedbackAnalytics`: total, relevant and
not-relevant counts, and `relevanceRate = total > 0 ? relevant/total*100 : 0`
rounded to 2 decimals. -/
def getFeedbackAnalyticsSummary (store : List UserFeedback) :
    AnalyticsSummary :=
  let totalFeedback := store.length
  let relevantCount := (store.filter (fun f => f.type == "relevant")).length
  let notRelevantCount :=
    (store.filter (fun f => f.type == "not_relevant")).length
  let relevanceRate : ℚ :=
    if totalFeedback > 0 then
      ((relevantCount : ℚ) / (totalFeedback : ℚ)) * 100
    else 0
  { totalFeedback := totalFeedback,
    relevantCount := relevantCount,
    notRelevantCount := notRelevantCount,
    relevanceRate := round2 relevanceRate }

/-- The claimed summary rate, stated from the spec's words for comparison:
`relevantCount / totalCount * 100` rounded to 2 decimals, and 0 on an
empty log. -/
def specSummaryRelevanceRate (store : List UserFeedback) : ℚ :=
  if store.length = 0 then 0
  else
    round2 (((store.countP (fun f => f.type == "relevant")) : ℚ) /
      (store.length : ℚ) * 100)

/-- The events with `timestamp > now - 7*24*60*60*1000` ("this week" in
`calculateTrends`). -/
def thisWeekEvents (store : List UserFeedback) (now : Int) :
    List UserFeedback :=
  store.filter (fun f => decide (f.timestamp > now - 7 * 24 * 60 * 60 * 1000))

/-- The events with `twoWeeksAgo < timestamp ≤ oneWeekAgo` ("last week" in
`calculateTrends`). -/
def lastWeekEvents (store : List UserFeedback) (now : Int) :
    List UserFeedback :=
  store.filter (fun f =>
    decide (f.timestamp > now - 14 * 24 * 60 * 60 * 1000) &&
    decide (f.timestamp ≤ now - 7 * 24 * 60 * 60 * 1000))

/-- The relevance rate of one trend partition: `relevant/count*100` when
the partition is non-empty, else 0. -/
def partitionRate (l : List UserFeedback) : ℚ :=
  if l.length > 0 then
    (((l.filter (fun f => f.type == "relevant")).length : ℚ) /
      (l.length : ℚ)) * 100
  else 0

/-- The object returned by `FeedbackService.calculateTrends`. -/
structure TrendReport where
  thisWeekCount : Nat
  thisWeekRate : ℚ
  lastWeekCount : Nat
  lastWeekRate : ℚ
  direction : String
  change : ℚ
deriving DecidableEq, Repr

/-- `FeedbackService.calculateTrends`: partition the log into this week
and last week, compute each partition's relevance rate, classify the
unrounded difference (`> 0` improving, `< 0` declining, else stable) and
report its absolute value rounded to 2 decimals. -/
def calculateTrends (store : List UserFeedback) (now : Int) : TrendReport :=
  let thisWeek := thisWeekEvents store now
  let lastWeek := lastWeekEvents store now
  let thisWeekRelevance := partitionRate thisWeek
  let lastWeekRelevance := partitionRate lastWeek
  let trend := thisWeekRelevance - lastWeekRelevance
  { thisWeekCount := thisWeek.length,
    thisWeekRate := round2 thisWeekRelevance,
    lastWeekCount := lastWeek.length,
    lastWeekRate := round2 lastWeekRelevance,
    direction :=
      if trend > 0 then "improving"
      else if trend < 0 then "declining"
      else "stable",
    change := round2 |trend| }

/-! ## Pincode service (PincodeService) -/

/-- `PincodeValidationResult` from the types module. -/
structure PincodeValidationResult where
  valid : Bool
  city : Option String := none
  state : Option String := none
  error : Option String := none
deriving DecidableEq, Repr

/-- The `/^\d{6}$/` format rule: exactly six ASCII digits (stated on the
character list of the string). -/
def isSixDigits (s : String) : Bool :=
  s.data.length == 6 && s.data.all Char.isDigit

/-- The first post office record of a successful external pincode lookup. -/
structure PostOffice where
  district : String
  state : String
deriving DecidableEq, Repr

/-- The outcome of the external pincode API call in `validatePincode`:
a successful response (`Status === 'Success'` with a post office record),
a well-formed negative response, or a throw (network error or malformed
response shape) that lands in the catch block. -/
inductive ApiOutcome
  | success (po : PostOffice)
  | notFound
  | failure
deriving DecidableEq, Repr

/-- The cache of `PincodeService`, keyed by pincode.  Timed eviction only
removes entries and is modelled by the eviction step of
`ReachablePincodeCache` below. -/
abbrev PincodeCache : Type := List (String × PincodeValidationResult)

/-- `PincodeService.validatePincode`: cache lookup first; then the 6-digit
format check; then the external lookup — a success caches and returns the
city/state, a negative response returns invalid, and a throw lands in the
catch block whose fallback re-checks the format and degrades to a
permissive `valid` result with unknown city/state.  Returns the result,
the updated cache, and whether the external lookup was invoked. -/
def validatePincode (lookup : String → ApiOutcome) (cache : PincodeCache)
    (pincode : String) : PincodeValidationResult × PincodeCache × Bool :=
  match cache.find? (fun e => e.1 == pincode) with
  | some e => (e.2, cache, false)
  | none =>
    if !(isSixDigits pincode) then
      ({ valid := false, error := some "Pincode must be a 6-digit number" },
       cache, false)
    else
      match lookup pincode with
      | ApiOutcome.success po =>
          let result : PincodeValidationResult :=
            { valid := true, city := some po.district, state := some po.state }
          (result, cache ++ [(pincode, result)], true)
      | ApiOutcome.notFound =>
          ({ valid := false, error := some "Invalid pincode or not found" },
           cache, true)
      | ApiOutcome.failure =>
          if isSixDigits pincode then
            ({ valid := true, city := some "Unknown", state := some "Unknown" },
             cache, true)
          else
            ({ valid := false,
               error := some "Unable to validate pincode at this time" },
             cache, true)

/-- The major-city pincode list shared by the delivery helpers. -/
def majorCityPincodes : List String :=
  ["110001", "400001", "560001", "600001", "700001"]

/-- `PincodeService.getEstimatedDeliveryDays`. -/
def getEstimatedDeliveryDays (retailer : Retailer) (pincode : String) : Nat :=
  let isMajorCity := majorCityPincodes.contains pincode
  match retailer with
  | Retailer.amazon => if isMajorCity then 1 else 3
  | Retailer.flipkart => if isMajorCity then 2 else 4
  | Retailer.myntra => if isMajorCity then 2 else 5
  | Retailer.meesho => if isMajorCity then 3 else 7

/-- `PincodeService.getDeliveryCost`. -/
def getDeliveryCost (retailer : Retailer) (pincode : String) : Nat :=
  let isMajorCity := majorCityPincodes.contains pincode
  match retailer with
  | Retailer.amazon => 0
  | Retailer.flipkart => if isMajorCity then 0 else 40
  | Retailer.myntra => if isMajorCity then 0 else 50
  | Retailer.meesho => if isMajorCity then 30 else 60

/-- `PincodeService.getDeliveryOptions`. -/
def getDeliveryOptions (retailer : Retailer) : List String :=
  match retailer with
  | Retailer.amazon => ["Standard", "Prime", "Same Day"]
  | Retailer.flipkart => ["Standard", "Express", "Flipkart Plus"]
  | Retailer.myntra => ["Standard", "Express", "Try & Buy"]
  | Retailer.meesho => ["Standard", "Express"]

/-- `PincodeService.getDeliveryRestrictions`, with the pushes in source
order. -/
def getDeliveryRestrictions (retailer : Retailer) (pincode : String) :
    List String :=
  (if !(majorCityPincodes.contains pincode) then
    ["No same-day delivery"] ++
      (if retailer = Retailer.myntra then ["Try & Buy not available"] else [])
  else []) ++
  (if retailer = Retailer.meesho then ["Cash on delivery only"] else [])

/-- The delivery block assembled by `getDeliveryInfo`. -/
structure DeliveryDetail where
  available : Bool
  estimatedDays : Nat
  cost : Nat
  options : List String
  restrictions : List String
deriving DecidableEq, Repr

/-- The full return value of `getDeliveryInfo`. -/
structure DeliveryInfoResult where
  pincode : String
  retailer : Retailer
  city : Option String
  state : Option String
  delivery : DeliveryDetail
deriving DecidableEq, Repr

/-- The delivery detail for a validated pincode (deterministic in the
retailer and the pincode). -/
def deliveryDetailFor (retailer : Retailer) (pincode : String) :
    DeliveryDetail :=
  { available := true,
    estimatedDays := getEstimatedDeliveryDays retailer pincode,
    cost := getDeliveryCost retailer pincode,
    options := getDeliveryOptions retailer,
    restrictions := getDeliveryRestrictions retailer pincode }

/-- `PincodeService.getDeliveryInfo`: validate the pincode first; throw
(`Except.error`) its error message when invalid, else assemble the
deterministic delivery info.  Also returns the updated cache and whether
the external lookup was invoked. -/
def getDeliveryInfo (lookup : String → ApiOutcome) (cache : PincodeCache)
    (pincode : String) (retailer : Retailer) :
    Except String DeliveryInfoResult × PincodeCache × Bool :=
  let v := validatePincode lookup cache pincode
  if !v.1.valid then
    (Except.error ((v.1.error).getD "Invalid pincode"), v.2.1, v.2.2)
  else
    (Except.ok
      { pincode := pincode, retailer := retailer,
        city := v.1.city, state := v.1.state,
        delivery := deliveryDetailFor retailer pincode },
     v.2.1, v.2.2)

/-- Caches reachable through the service from the empty cache: any
sequence of `validatePincode` calls (under arbitrary lookup outcomes)
interleaved with timed evictions (removal of entries). -/
inductive ReachablePincodeCache : PincodeCache → Prop
  | nil : ReachablePincodeCache []
  | step {c : PincodeCache} (lookup : String → ApiOutcome) (p : String) :
      ReachablePincodeCache c →
      ReachablePincodeCache (validatePincode lookup c p).2.1
  | evict {c c' : PincodeCache} :
      ReachablePincodeCache c → c'.Sublist c → ReachablePincodeCache c'

/-! ## Concrete inputs used by witnesses and counterexamples -/

/-- A concrete settled-outcome assignment: amazon's adapter throws,
flipkart succeeds with one item, myntra times out, meesho succeeds with
none. -/
def wOutcome : Retailer → FetchOutcome Unit :=
  fun r =>
    match r with
    | Retailer.amazon => FetchOutcome.thrown "boom"
    | Retailer.flipkart => FetchOutcome.ok [()]
    | Retailer.myntra => FetchOutcome.timeout
    | Retailer.meesho => FetchOutcome.ok []

/-- An invalid feedback event: unrecognized verdict. -/
def fBad : UserFeedback :=
  { productId := JSVal.str "p1", queryId := JSVal.str "q1",
    type := "maybe", timestamp := 5 }

/-- A valid feedback event. -/
def fGood : UserFeedback :=
  { productId := JSVal.str "p1", queryId := JSVal.str "q1",
    type := "relevant", timestamp := 5 }

/-- A valid feedback event with timestamp exactly 0. -/
def fZeroTs : UserFeedback :=
  { productId := JSVal.str "p2", queryId := JSVal.str "q2",
    type := "not_relevant", timestamp := 0 }

/-- A random-draw assignment giving scores 70, 99, 75 to the three mock
products, so the maximum score sits at index 1 while `top_pick` sits at
index 0. -/
def cexRand : Nat → Fin 30 :=
  fun i => if i = 0 then ⟨0, by decide⟩
           else if i = 1 then ⟨29, by decide⟩
           else ⟨5, by decide⟩

/-- The mock batch produced under `cexRand`. -/
def cexBatch : List Product :=
  getMockProducts Retailer.amazon "shoes" 1700000000000 cexRand

/-- A constant random-draw assignment for witnesses. -/
def wRand : Nat → Fin 30 := fun _ => ⟨7, by decide⟩

/-- A lookup oracle whose every call throws (external dependency down). -/
def wLookupFail : String → ApiOutcome := fun _ => ApiOutcome.failure

/-! ## Theorems -/

/-- `searchAllRetailers` computes, slot by slot, the settled outcome of
each retailer's race, in configuration order. -/
theorem searchAllRetailers_eq {P : Type} (o : Retailer → FetchOutcome P) :
    searchAllRetailers o =
      [(Retailer.amazon, settleOutcome (o Retailer.amazon)),
       (Retailer.flipkart, settleOutcome (o Retailer.flipkart)),
       (Retailer.myntra, settleOutcome (o Retailer.myntra)),
       (Retailer.meesho, settleOutcome (o Retailer.meesho))] := rfl

/-- C1: for every query outcome (however many per-source fetches fail or
time out), `searchAllRetailers` returns a result set whose keys are
exactly the configured sources, with exactly one `SearchResult` entry per
source and no missing key. -/
theorem s2p_C1 {P : Type} (outcome : Retailer → FetchOutcome P)
    (r : Retailer) :
    (searchAllRetailers outcome).map Prod.fst = retailers ∧
    (searchAllRetailers outcome).countP (fun e => decide (e.1 = r)) = 1 ∧
    (findResult (searchAllRetailers outcome) r).isSome = true := by
  cases r <;> exact ⟨rfl, rfl, rfl⟩

/-- C2: per-source failures are locally contained — if source `r`'s
adapter throws or its race times out, `searchAllRetailers` still returns
(no exception), `r`'s slot is an error result with no items and an error
message, and any source `r'` whose adapter succeeded keeps its items with
status success. -/
theorem s2p_C2 {P : Type} (outcome : Retailer → FetchOutcome P)
    (r r' : Retailer) (m : String) (ps : List P)
    (hfail : outcome r = FetchOutcome.thrown m ∨
      outcome r = FetchOutcome.timeout)
    (hok : outcome r' = FetchOutcome.ok ps) :
    (∃ res, findResult (searchAllRetailers outcome) r = some res ∧
      res.status = Status.error ∧ res.products = [] ∧
      res.error.isSome = true) ∧
    findResult (searchAllRetailers outcome) r' =
      some { status := Status.success, products := ps, error := none } := by
  rw [searchAllRetailers_eq]
  constructor
  · cases r <;> rcases hfail with h | h <;>
      simp [findResult, h, settleOutcome]
  · cases r' <;> simp [findResult, hok, settleOutcome]

/-- Witness for C2 at a concrete outcome assignment: amazon throws,
flipkart succeeds with one item. -/
theorem s2p_C2_witness :
    (∃ res, findResult (searchAllRetailers wOutcome) Retailer.amazon =
        some res ∧ res.status = Status.error ∧ res.products = [] ∧
        res.error.isSome = true) ∧
    findResult (searchAllRetailers wOutcome) Retailer.flipkart =
      some { status := Status.success, products := [()], error := none } :=
  s2p_C2 wOutcome Retailer.amazon Retailer.flipkart "boom" [()]
    (Or.inl rfl) rfl

/-- Characterization of a passing validation: both ids are truthy strings,
the verdict is one of the two recognized strings, and the timestamp is not
negative (a zero timestamp is falsy and skips the timestamp guard). -/
theorem validateFeedback_ok_iff (f : UserFeedback) :
    validateFeedback f = Except.ok () ↔
      (f.productId.truthy = true ∧ f.productId.isString = true ∧
       f.queryId.truthy = true ∧ f.queryId.isString = true ∧
       (f.type = "relevant" ∨ f.type = "not_relevant") ∧
       0 ≤ f.timestamp) := by
  unfold validateFeedback
  split_ifs with h1 h2 h3 h4 <;> simp_all <;> try tauto
  · intro p1 p2 _ _ _
    rcases h1 with h | h <;> simp_all
  · intro q1 q2 _
    rcases h2 with h | h <;> simp_all
  · constructor
    · tauto
    · by_cases h : f.timestamp = 0
      · omega
      · exact h4 h

/-- C3: feedback submission is validated strictly and atomically — an
event with a non-string (or missing) item id or query id, an unrecognized
verdict, or a negative timestamp makes `submitFeedback` throw and leaves
the store unchanged, while every event passing validation is appended to
the store. -/
theorem s2p_C3 (f : UserFeedback) (store : List UserFeedback) (now : Int) :
    ((f.productId.isString = false ∨ f.queryId.isString = false ∨
      (f.type ≠ "relevant" ∧ f.type ≠ "not_relevant") ∨ f.timestamp < 0) →
      (∃ e, submitFeedback f store now = Except.error e) ∧
      runSubmit f store now = store) ∧
    (validateFeedback f = Except.ok () →
      submitFeedback f store now = Except.ok (store ++ [storedEvent f now]) ∧
      runSubmit f store now = store ++ [storedEvent f now]) := by
  constructor
  · intro hbad
    have herr : ∃ e, validateFeedback f = Except.error e := by
      cases hv : validateFeedback f with
      | error e => exact ⟨e, rfl⟩
      | ok u =>
        cases u
        have hok := (validateFeedback_ok_iff f).mp hv
        rcases hbad with h | h | h | h
        · simp [h] at hok
        · simp [h] at hok
        · rcases hok.2.2.2.2.1 with h1 | h1
          · exact absurd h1 h.1
          · exact absurd h1 h.2
        · omega
    rcases herr with ⟨e, he⟩
    exact ⟨⟨e, by simp [submitFeedback, he]⟩,
      by simp [runSubmit, submitFeedback, he]⟩
  · intro hok
    exact ⟨by simp [submitFeedback, hok],
      by simp [runSubmit, submitFeedback, hok]⟩

/-- Witness for C3: an event with verdict "maybe" is rejected with the
store unchanged; a valid event is appended. -/
theorem s2p_C3_witness :
    ((∃ e, submitFeedback fBad [] 99 = Except.error e) ∧
      runSubmit fBad [] 99 = []) ∧
    (submitFeedback fGood [] 99 = Except.ok [storedEvent fGood 99] ∧
      runSubmit fGood [] 99 = [storedEvent fGood 99]) :=
  ⟨(s2p_C3 fBad [] 99).1 (Or.inr (Or.inr (Or.inl ⟨by decide, by decide⟩))),
   (s2p_C3 fGood [] 99).2 rfl⟩

/-- Every event in a store reachable from the empty store under a positive
ingestion clock has a positive timestamp. -/
theorem reachable_pos_timestamp {st : List UserFeedback}
    (h : ReachableFeedbackStore st) : ∀ g ∈ st, 0 < g.timestamp := by
  induction h with
  | nil => simp
  | @submit st st' f now _ hnow hsub ih =>
    cases hv : validateFeedback f with
    | error e => simp [submitFeedback, hv] at hsub
    | ok u =>
      cases u
      have hok := (validateFeedback_ok_iff f).mp hv
      have hst : st' = st ++ [storedEvent f now] := by
        simpa [submitFeedback, hv] using hsub.symm
      subst hst
      intro g hg
      rcases List.mem_append.mp hg with hmem | hmem
      · exact ih g hmem
      · have hgs : g = storedEvent f now := by simpa using hmem
        subst hgs
        have hts := hok.2.2.2.2.2
        simp only [storedEvent]
        split <;> simp_all
        omega

/-- C10: an event with timestamp exactly 0 passes validation (its other
fields being valid) and is stored with its timestamp replaced by the
ingestion time, and consequently no stored event ever carries timestamp
0. -/
theorem s2p_C10 (f : UserFeedback) (store : List UserFeedback) (now : Int)
    (h0 : f.timestamp = 0)
    (hp : f.productId.truthy = true ∧ f.productId.isString = true)
    (hq : f.queryId.truthy = true ∧ f.queryId.isString = true)
    (hv : f.type = "relevant" ∨ f.type = "not_relevant")
    (hreach : ReachableFeedbackStore store) (hnow : 0 < now) :
    submitFeedback f store now =
      Except.ok (store ++ [{ f with timestamp := now }]) ∧
    ∀ g ∈ store ++ [{ f with timestamp := now }], g.timestamp ≠ 0 := by
  have hok : validateFeedback f = Except.ok () :=
    (validateFeedback_ok_iff f).mpr ⟨hp.1, hp.2, hq.1, hq.2, hv, by omega⟩
  have hst : storedEvent f now = { f with timestamp := now } := by
    simp [storedEvent, h0]
  constructor
  · rw [← hst]
    simp [submitFeedback, hok]
  · intro g hg
    rcases List.mem_append.mp hg with hmem | hmem
    · exact ne_of_gt (reachable_pos_timestamp hreach g hmem)
    · have hgs : g = { f with timestamp := now } := by simpa using hmem
      subst hgs
      simpa using ne_of_gt hnow

/-- Witness for C10: a zero-timestamp event at ingestion time 42 is
accepted and stored with timestamp 42, which is nonzero. -/
theorem s2p_C10_witness :
    submitFeedback fZeroTs [] 42 =
      Except.ok [{ fZeroTs with timestamp := 42 }] ∧
    ({ fZeroTs with timestamp := (42 : Int) }).timestamp ≠ 0 :=
  ⟨by simpa using (s2p_C10 fZeroTs [] 42 rfl ⟨by decide, by decide⟩
      ⟨by decide, by decide⟩ (Or.inr rfl) ReachableFeedbackStore.nil
      (by decide)).1,
   (s2p_C10 fZeroTs [] 42 rfl ⟨by decide, by decide⟩
      ⟨by decide, by decide⟩ (Or.inr rfl) ReachableFeedbackStore.nil
      (by decide)).2 _ (by simp)⟩

/-- Rounding zero gives zero. -/
theorem round2_zero : round2 0 = 0 := by
  unfold round2
  norm_num

/-- C4: the summary relevance rate of the analytics equals
`relevantCount / totalCount * 100` rounded to 2 decimals, and on the empty
event log it is 0 (and the computation is total, so no error is raised). -/
theorem s2p_C4 (store : List UserFeedback) :
    (getFeedbackAnalyticsSummary store).relevanceRate =
      specSummaryRelevanceRate store ∧
    (getFeedbackAnalyticsSummary ([] : List UserFeedback)).relevanceRate
      = 0 := by
  constructor
  · unfold getFeedbackAnalyticsSummary specSummaryRelevanceRate
    cases store with
    | nil => simpa using round2_zero
    | cons a l => simp [List.countP_eq_length_filter]
  · simpa [getFeedbackAnalyticsSummary] using round2_zero

/-- C5: the trend computation partitions the log into this week and last
week by timestamp, reports direction improving exactly when the this-week
rate exceeds the last-week rate, declining exactly when it is lower,
stable exactly when the two are equal, with magnitude the rounded absolute
difference of the two partition rates (each 0 on an empty partition). -/
theorem s2p_C5 (store : List UserFeedback) (now : Int) :
    ((calculateTrends store now).direction = "improving" ↔
      partitionRate (lastWeekEvents store now) <
        partitionRate (thisWeekEvents store now)) ∧
    ((calculateTrends store now).direction = "declining" ↔
      partitionRate (thisWeekEvents store now) <
        partitionRate (lastWeekEvents store now)) ∧
    ((calculateTrends store now).direction = "stable" ↔
      partitionRate (thisWeekEvents store now) =
        partitionRate (lastWeekEvents store now)) ∧
    (calculateTrends store now).change =
      round2 |partitionRate (thisWeekEvents store now) -
        partitionRate (lastWeekEvents store now)| ∧
    (calculateTrends store now).thisWeekRate =
      round2 (partitionRate (thisWeekEvents store now)) ∧
    (calculateTrends store now).lastWeekRate =
      round2 (partitionRate (lastWeekEvents store now)) ∧
    partitionRate ([] : List UserFeedback) = 0 := by
  have hdir : (calculateTrends store now).direction =
      (if partitionRate (thisWeekEvents store now) -
          partitionRate (lastWeekEvents store now) > 0 then "improving"
       else if partitionRate (thisWeekEvents store now) -
          partitionRate (lastWeekEvents store now) < 0 then "declining"
       else "stable") := rfl
  refine ⟨?_, ?_, ?_, rfl, rfl, rfl, by simp [partitionRate]⟩ <;>
    rw [hdir] <;>
    rcases lt_trichotomy (partitionRate (thisWeekEvents store now))
      (partitionRate (lastWeekEvents store now)) with h | h | h
  · rw [if_neg (by linarith), if_pos (by linarith)]
    simp only [false_iff, show ("declining" = "improving") ↔ False by simp]
    linarith
  · rw [if_neg (by linarith), if_neg (by linarith)]
    simp only [false_iff, show ("stable" = "improving") ↔ False by simp]
    linarith
  · rw [if_pos (by linarith)]
    simpa using h
  · rw [if_neg (by linarith), if_pos (by linarith)]
    simpa using h
  · rw [if_neg (by linarith), if_neg (by linarith)]
    simp only [false_iff, show ("stable" = "declining") ↔ False by simp]
    linarith
  · rw [if_pos (by linarith)]
    simp only [false_iff, show ("improving" = "declining") ↔ False by simp]
    linarith
  · rw [if_neg (by linarith), if_pos (by linarith)]
    simp only [false_iff, show ("declining" = "stable") ↔ False by simp]
    linarith
  · rw [if_neg (by linarith), if_neg (by linarith)]
    simpa using h
  · rw [if_pos (by linarith)]
    simp only [false_iff, show ("improving" = "stable") ↔ False by simp]
    linarith

/-- C6 counterexample: in the concrete non-empty mock batch `cexBatch`
the match scores are 70, 99, 75, yet `top_pick` sits on the first item
(score 70), not on the maximum-score item — highlight assignment is
positional, so the claimed max-score property fails. -/
theorem s2p_C6_counterexample :
    cexBatch ≠ [] ∧ ¬ topPickOnMaxScore cexBatch := by
  constructor
  · unfold cexBatch getMockProducts
    decide
  · unfold topPickOnMaxScore
    decide

/-- C6 (amended): highlight assignment is positional — in every mock
batch the first item receives exactly `top_pick`, the second exactly
`best_value`, the third exactly `fastest_delivery`, independent of the
match scores, and any index beyond the batch receives no highlight (an
empty batch therefore yields no highlights, as no per-item assignment
occurs). -/
theorem s2p_C6_amended (retailer : Retailer) (desc : String) (now : Int)
    (rand : Nat → Fin 30) :
    (getMockProducts retailer desc now rand).map
        (fun p => p.highlights.map (fun h => h.type)) =
      [[HighlightType.top_pick], [HighlightType.best_value],
       [HighlightType.fastest_delivery]] ∧
    ∀ index, 3 ≤ index → generateHighlights index = [] := by
  constructor
  · rfl
  · intro i hi
    unfold generateHighlights
    rw [if_neg (by omega), if_neg (by omega), if_neg (by omega)]
    rfl

/-- Witness for the amended C6 at a concrete batch and index 5. -/
theorem s2p_C6_witness :
    (getMockProducts Retailer.flipkart "bag" 7 wRand).map
        (fun p => p.highlights.map (fun h => h.type)) =
      [[HighlightType.top_pick], [HighlightType.best_value],
       [HighlightType.fastest_delivery]] ∧
    generateHighlights 5 = [] :=
  ⟨(s2p_C6_amended Retailer.flipkart "bag" 7 wRand).1,
   (s2p_C6_amended Retailer.flipkart "bag" 7 wRand).2 5 (by decide)⟩

/-- A `validatePincode` call either leaves the cache unchanged or appends
one entry keyed by its (format-valid) pincode. -/
theorem validatePincode_cache (lookup : String → ApiOutcome)
    (c : PincodeCache) (p : String) :
    (validatePincode lookup c p).2.1 = c ∨
    (isSixDigits p = true ∧
      ∃ r, (validatePincode lookup c p).2.1 = c ++ [(p, r)]) := by
  cases hfind : List.find? (fun e => e.1 == p) c with
  | some x =>
    left
    unfold validatePincode
    simp [hfind]
  | none =>
    by_cases hfmt : isSixDigits p = true
    · cases hlk : lookup p with
      | success po =>
        have heq : (validatePincode lookup c p).2.1 =
            c ++ [(p, { valid := true, city := some po.district,
                        state := some po.state })] := by
          unfold validatePincode
          simp [hfind, hfmt, hlk]
        exact Or.inr ⟨hfmt, _, heq⟩
      | notFound =>
        left
        unfold validatePincode
        simp [hfind, hfmt, hlk]
      | failure =>
        left
        unfold validatePincode
        simp [hfind, hfmt, hlk]
    · left
      have hfmt2 : isSixDigits p = false := by simpa using hfmt
      unfold validatePincode
      simp [hfind, hfmt2]

/-- Every key of a reachable pincode cache passes the 6-digit format rule:
only format-valid lookups are ever cached. -/
theorem reachable_cache_keys {c : PincodeCache}
    (h : ReachablePincodeCache c) : ∀ e ∈ c, isSixDigits e.1 = true := by
  induction h with
  | nil => simp
  | step lookup p hc ih =>
    rcases validatePincode_cache lookup _ p with heq | ⟨hfmt, r, heq⟩
    · rw [heq]; exact ih
    · rw [heq]
      intro e he
      rcases List.mem_append.mp he with hmem | hmem
      · exact ih e hmem
      · have : e = (p, r) := by simpa using hmem
        subst this
        exact hfmt
  | evict hc hsub ih => exact fun e he => ih e (hsub.mem he)

/-- A malformed pincode is never a key of a format-valid cache, so the
cache-first lookup misses. -/
theorem find_none_of_malformed {c : PincodeCache}
    (hkeys : ∀ e ∈ c, isSixDigits e.1 = true) {p : String}
    (hbad : isSixDigits p = false) :
    c.find? (fun e => e.1 == p) = none := by
  apply List.find?_eq_none.mpr
  intro e he
  simp only [beq_iff_eq]
  intro hep
  have hk := hkeys e he
  rw [hep, hbad] at hk
  exact Bool.false_ne_true hk

/-- C7: for every location code failing the 6-digit format rule and every
reachable cache, `validatePincode` reports the invalid-location error
without invoking the external lookup (the third component is `false`),
and `getDeliveryInfo` fails with that error, likewise without any
external lookup. -/
theorem s2p_C7 (lookup : String → ApiOutcome) (cache : PincodeCache)
    (pincode : String) (retailer : Retailer)
    (hreach : ReachablePincodeCache cache)
    (hbad : isSixDigits pincode = false) :
    validatePincode lookup cache pincode =
      ({ valid := false, error := some "Pincode must be a 6-digit number" },
       cache, false) ∧
    getDeliveryInfo lookup cache pincode retailer =
      (Except.error "Pincode must be a 6-digit number", cache, false) := by
  have hfind := find_none_of_malformed (reachable_cache_keys hreach) hbad
  have hv : validatePincode lookup cache pincode =
      ({ valid := false, error := some "Pincode must be a 6-digit number" },
       cache, false) := by
    unfold validatePincode
    simp [hfind, hbad]
  refine ⟨hv, ?_⟩
  unfold getDeliveryInfo
  rw [hv]
  rfl

/-- Witness for C7: the 5-digit code "12345" on the empty cache. -/
theorem s2p_C7_witness :
    validatePincode wLookupFail [] "12345" =
      ({ valid := false, error := some "Pincode must be a 6-digit number" },
       [], false) ∧
    getDeliveryInfo wLookupFail [] "12345" Retailer.amazon =
      (Except.error "Pincode must be a 6-digit number", [], false) :=
  s2p_C7 wLookupFail [] "12345" Retailer.amazon ReachablePincodeCache.nil
    (by decide)

/-- C8: when the external lookup throws on an uncached code,
`validatePincode` degrades to the permissive fallback instead of
propagating the failure — a format-valid code is reported valid with
city and state "Unknown" and `getDeliveryInfo` still succeeds for it —
while a code failing the format rule is reported invalid. -/
theorem s2p_C8 (lookup : String → ApiOutcome) (cache : PincodeCache)
    (pincode : String) (retailer : Retailer)
    (hmiss : cache.find? (fun e => e.1 == pincode) = none)
    (hfail : lookup pincode = ApiOutcome.failure) :
    (isSixDigits pincode = true →
      validatePincode lookup cache pincode =
        ({ valid := true, city := some "Unknown", state := some "Unknown" },
         cache, true) ∧
      getDeliveryInfo lookup cache pincode retailer =
        (Except.ok
          { pincode := pincode, retailer := retailer,
            city := some "Unknown", state := some "Unknown",
            delivery := deliveryDetailFor retailer pincode },
         cache, true)) ∧
    (isSixDigits pincode = false →
      validatePincode lookup cache pincode =
        ({ valid := false,
           error := some "Pincode must be a 6-digit number" },
         cache, false)) := by
  constructor
  · intro hfmt
    have hv : validatePincode lookup cache pincode =
        ({ valid := true, city := some "Unknown", state := some "Unknown" },
         cache, true) := by
      unfold validatePincode
      simp [hmiss, hfmt, hfail]
    refine ⟨hv, ?_⟩
    unfold getDeliveryInfo
    rw [hv]
    rfl
  · intro hfmt
    unfold validatePincode
    simp [hmiss, hfmt]

/-- Witness for C8: the valid 6-digit code "560099" on the empty cache
with the always-throwing lookup, and the malformed "560" beside it. -/
theorem s2p_C8_witness :
    (validatePincode wLookupFail [] "560099" =
      ({ valid := true, city := some "Unknown", state := some "Unknown" },
       [], true) ∧
    getDeliveryInfo wLookupFail [] "560099" Retailer.myntra =
      (Except.ok
        { pincode := "560099", retailer := Retailer.myntra,
          city := some "Unknown", state := some "Unknown",
          delivery := deliveryDetailFor Retailer.myntra "560099" },
       [], true)) ∧
    validatePincode wLookupFail [] "560" =
      ({ valid := false,
         error := some "Pincode must be a 6-digit number" }, [], false) :=
  ⟨(s2p_C8 wLookupFail [] "560099" Retailer.myntra rfl rfl).1 (by decide),
   (s2p_C8 wLookupFail [] "560" Retailer.myntra rfl rfl).2 (by decide)⟩

/-- C9 counterexample: for the uncovered code "999999" on amazon, two
invocations of `validateDelivery` with the same (locationCode, source)
pair but different `Math.random()` draws return different booleans, so
the function is not a deterministic predicate of its two arguments. -/
theorem s2p_C9_counterexample :
    validateDelivery "999999" Retailer.amazon (1/2) = true ∧
    validateDelivery "999999" Retailer.amazon 0 = false ∧
    validateDelivery "999999" Retailer.amazon (1/2) ≠
      validateDelivery "999999" Retailer.amazon 0 := by
  refine ⟨?_, ?_, ?_⟩ <;> norm_num [validateDelivery, deliveryZones] <;>
    decide

/-- C9 (amended): `validateDelivery` is a deterministic function of the
location code, the source and the random draw; for a code on the source's
delivery-zone list the draw is irrelevant and the result is always true,
but for other codes the result depends on the draw. -/
theorem s2p_C9_amended (pincode : String) (retailer : Retailer)
    (rnd1 rnd2 : ℚ)
    (hin : (deliveryZones retailer).contains pincode = true) :
    validateDelivery pincode retailer rnd1 =
      validateDelivery pincode retailer rnd2 ∧
    validateDelivery pincode retailer rnd1 = true := by
  unfold validateDelivery
  rw [hin]
  simp

/-- Witness for the amended C9 at the zone-listed code "110001". -/
theorem s2p_C9_witness :
    validateDelivery "110001" Retailer.amazon 0 =
      validateDelivery "110001" Retailer.amazon (1/2) ∧
    validateDelivery "110001" Retailer.amazon 0 = true :=
  s2p_C9_amended "110001" Retailer.amazon 0 (1/2) (by decide)

end Spec2Proof
